import Mathlib

/-!
Verification of the cart / order core of the EcommerceRESTAPI repository
(`src/controllers/cartController.js`, `src/controllers/orderController.js`,
`src/controllers/productController.js` and the Sequelize models).

Modelling conventions:
* Monetary values (`Product.price`, `CartItem.priceAtAdd`,
  `OrderItem.priceAtPurchase`, `Order.totalAmount`) are `DECIMAL(10,2)`
  columns; we model them as integers counting cents, so that
  `totalAmount.toFixed(2)` is the identity on the representation and
  the floating sums in the controllers are exact.
* The database is a record of lists of rows plus a fresh-id counter
  standing for the auto-increment sequences.
* Each controller is a pure function from its inputs and the database
  to a response (HTTP status, success flag, message, optional payload)
  and a successor database.  The response payloads that merely echo the
  stored rows (e.g. the updated cart returned by `addToCart`) are
  recoverable from the successor database; `getOrderById` keeps its
  payload explicitly because an observability claim is stated about it.
* `placeOrder` runs inside a Sequelize transaction; every early return
  performs `t.rollback()`, which we model by returning the original
  database unchanged.
-/

/-- A product row (`Product` model): current unit price (cents) and
available stock.  `categoryId` participates only in the update check. -/
structure Product where
  id : Nat
  name : String
  price : Int
  stock : Int
  categoryId : Nat
deriving Repr, DecidableEq

/-- A cart row (`Cart` model): one per user, created lazily. -/
structure Cart where
  id : Nat
  userId : Nat
deriving Repr, DecidableEq

/-- A cart line (`CartItem` model).  `priceAtAdd` is the frozen unit
price; it is `NOT NULL` in the schema but `addToCart` defends against a
missing value, hence the `Option`. -/
structure CartItem where
  id : Nat
  cartId : Nat
  productId : Nat
  quantity : Int
  priceAtAdd : Option Int
deriving Repr, DecidableEq

/-- An order row (`Order` model). -/
structure Order where
  id : Nat
  userId : Nat
  totalAmount : Int
  status : String
deriving Repr, DecidableEq

/-- An order line (`OrderItem` model). -/
structure OrderItem where
  id : Nat
  orderId : Nat
  productId : Nat
  quantity : Int
  priceAtPurchase : Option Int
deriving Repr, DecidableEq

/-- The payload pushed onto `orderItems` inside the `placeOrder` loop
before the rows are created. -/
structure OrderItemSpec where
  productId : Nat
  quantity : Int
  priceAtPurchase : Option Int
deriving Repr, DecidableEq

/-- The visible state of the persistent store. -/
structure DB where
  categories : List Nat
  products : List Product
  carts : List Cart
  cartItems : List CartItem
  orders : List Order
  orderItems : List OrderItem
  nextId : Nat
deriving Repr, DecidableEq

/-- An HTTP response: status code, `success` flag, `message`, and an
optional data payload. -/
structure Resp (α : Type) where
  code : Nat
  success : Bool
  message : String
  data : Option α
deriving Repr, DecidableEq

/-- `Product.findByPk(pid)`. -/
def findProduct (db : DB) (pid : Nat) : Option Product :=
  db.products.find? (fun p => p.id == pid)

/-- `Cart.findOne({ where: { userId } })`. -/
def findCart (db : DB) (uid : Nat) : Option Cart :=
  db.carts.find? (fun c => c.userId == uid)

/-- `CartItem.findOne({ where: { cartId, productId } })`. -/
def findCartItem (db : DB) (cartId pid : Nat) : Option CartItem :=
  db.cartItems.find? (fun i => i.cartId == cartId && i.productId == pid)

/-- The lines of one cart, as loaded by the `include: CartItem` joins. -/
def cartItemsOf (db : DB) (cartId : Nat) : List CartItem :=
  db.cartItems.filter (fun i => i.cartId == cartId)

/-- `Cannot add more items. Only ${product.stock} items available`. -/
def insufficientAddMsg (avail : Int) : String :=
  s!"Cannot add more items. Only {avail} items available"

/-- `Insufficient stock. Only ${cartItem.product.stock} available`. -/
def insufficientUpdateMsg (avail : Int) : String :=
  s!"Insufficient stock. Only {avail} available"

/-- `Insufficient stock for ${item.product.name}. Only ${item.product.stock} available`. -/
def insufficientStockMsg (nm : String) (avail : Int) : String :=
  s!"Insufficient stock for {nm}. Only {avail} available"

/-- `cartController.addToCart` (POST /api/cart).

404 if the product is unknown; the cart is created lazily; if a line for
the product already exists the quantities are merged under a live stock
check (with a defensive backfill of a missing `priceAtAdd`); otherwise a
fresh line is created carrying the product price of the moment.  The
fresh-line branch of the source performs no stock check. -/
def addToCart (uid pid : Nat) (quantity : Int) (db : DB) : Resp Unit × DB :=
  match findProduct db pid with
  | none => (⟨404, false, "Product not found", none⟩, db)
  | some product =>
    let cartAndDb : Cart × DB :=
      match findCart db uid with
      | some c => (c, db)
      | none =>
        let c : Cart := ⟨db.nextId, uid⟩
        (c, { db with carts := db.carts ++ [c], nextId := db.nextId + 1 })
    let cart := cartAndDb.1
    let db1 := cartAndDb.2
    match findCartItem db1 cart.id pid with
    | some item =>
      let newQuantity := item.quantity + quantity
      if product.stock < newQuantity then
        (⟨400, false, insufficientAddMsg product.stock, none⟩, db1)
      else
        let price := match item.priceAtAdd with
          | none => some product.price
          | some p => some p
        let item2 := { item with quantity := newQuantity, priceAtAdd := price }
        let items2 := db1.cartItems.map (fun i => if i.id == item.id then item2 else i)
        (⟨200, true, "Item added to cart successfully", none⟩,
         { db1 with cartItems := items2 })
    | none =>
      let item : CartItem := ⟨db1.nextId, cart.id, pid, quantity, some product.price⟩
      (⟨200, true, "Item added to cart successfully", none⟩,
       { db1 with cartItems := db1.cartItems ++ [item], nextId := db1.nextId + 1 })

/-- The running total of a cart:
`items.reduce((sum, item) => sum + parseFloat(item.priceAtAdd) * item.quantity, 0)`. -/
def cartTotal (items : List CartItem) : Int :=
  items.foldl (fun acc i => acc + i.priceAtAdd.getD 0 * i.quantity) 0

/-- `cartController.getCart` (GET /api/cart): returns the lines and the
computed total, creating the cart lazily. -/
def getCart (uid : Nat) (db : DB) : (List CartItem × Int) × DB :=
  match findCart db uid with
  | some cart =>
    let items := cartItemsOf db cart.id
    ((items, cartTotal items), db)
  | none =>
    (([], 0),
     { db with carts := db.carts ++ [⟨db.nextId, uid⟩], nextId := db.nextId + 1 })

/-- `cartController.updateCartItem` (PUT /api/cart/:itemId).

404 if the user has no cart or the line is not in it; 400 if the new
quantity is below 1; 400 naming the available stock if it exceeds the
product stock; otherwise the quantity is overwritten.  The joined
product being absent would make `cartItem.product.stock` throw, caught
as a 500. -/
def updateCartItem (uid itemId : Nat) (quantity : Int) (db : DB) : Resp Unit × DB :=
  match findCart db uid with
  | none => (⟨404, false, "Cart not found", none⟩, db)
  | some cart =>
    match db.cartItems.find? (fun i => i.id == itemId && i.cartId == cart.id) with
    | none => (⟨404, false, "Cart item not found", none⟩, db)
    | some item =>
      if quantity < 1 then
        (⟨400, false, "Quantity must be at least 1", none⟩, db)
      else
        match findProduct db item.productId with
        | none => (⟨500, false, "Error updating cart item", none⟩, db)
        | some product =>
          if product.stock < quantity then
            (⟨400, false, insufficientUpdateMsg product.stock, none⟩, db)
          else
            let item2 := { item with quantity := quantity }
            let items2 := db.cartItems.map (fun i => if i.id == item.id then item2 else i)
            (⟨200, true, "Cart item updated successfully", none⟩,
             { db with cartItems := items2 })

/-- `cartController.removeFromCart` (DELETE /api/cart/:itemId). -/
def removeFromCart (uid itemId : Nat) (db : DB) : Resp Unit × DB :=
  match findCart db uid with
  | none => (⟨404, false, "Cart not found", none⟩, db)
  | some cart =>
    match db.cartItems.find? (fun i => i.id == itemId && i.cartId == cart.id) with
    | none => (⟨404, false, "Cart item not found", none⟩, db)
    | some item =>
      (⟨200, true, "Item removed from cart successfully", none⟩,
       { db with cartItems := db.cartItems.filter (fun i => i.id != item.id) })

/-- `cartController.clearCart` (DELETE /api/cart): 404 when the user has
no cart row, otherwise deletes every line of the cart. -/
def clearCart (uid : Nat) (db : DB) : Resp Unit × DB :=
  match findCart db uid with
  | none => (⟨404, false, "Cart not found", none⟩, db)
  | some cart =>
    (⟨200, true, "Cart cleared successfully", none⟩,
     { db with cartItems := db.cartItems.filter (fun i => i.cartId != cart.id) })

/-- `productController.updateProduct` (PUT /api/products/:id).  Fields
missing from the request body are left untouched by `product.update`.
The Cloudinary image branch is outside the modelled state. -/
def updateProduct (pid : Nat) (name : Option String) (price stock : Option Int)
    (categoryId : Option Nat) (db : DB) : Resp Unit × DB :=
  match findProduct db pid with
  | none => (⟨404, false, "Product not found", none⟩, db)
  | some _ =>
    let categoryOk := match categoryId with
      | some c => db.categories.contains c
      | none => true
    if categoryOk then
      (⟨200, true, "Product updated successfully", none⟩,
       { db with products := db.products.map (fun p =>
           if p.id == pid then
             { p with name := name.getD p.name, price := price.getD p.price,
                      stock := stock.getD p.stock,
                      categoryId := categoryId.getD p.categoryId }
           else p) })
    else
      (⟨404, false, "Category not found", none⟩, db)

/-- Outcome of the validation/decrement loop of `placeOrder`. -/
inductive CheckoutErr where
  | productMissing
  | insufficient (name : String) (avail : Int)
deriving Repr, DecidableEq

/-- `product.decrement('stock', { by: amount })` within the transaction. -/
def decrementStock (db : DB) (pid : Nat) (amount : Int) : DB :=
  { db with products := db.products.map (fun p =>
      if p.id == pid then { p with stock := p.stock - amount } else p) }

/-- The `for (const item of cart.items)` loop of `placeOrder`: validates
each line against the product snapshot loaded with the cart (`db0`),
accumulates the total and the order-line payloads, and issues the stock
decrements on the working state. -/
def checkoutItems (db0 : DB) : List CartItem → DB → Int → List OrderItemSpec →
    Except CheckoutErr (DB × Int × List OrderItemSpec)
  | [], db, total, acc => .ok (db, total, acc)
  | item :: rest, db, total, acc =>
    match findProduct db0 item.productId with
    | none => .error .productMissing
    | some product =>
      if product.stock < item.quantity then
        .error (.insufficient product.name product.stock)
      else
        checkoutItems db0 rest (decrementStock db item.productId item.quantity)
          (total + item.priceAtAdd.getD 0 * item.quantity)
          (acc ++ [⟨item.productId, item.quantity, item.priceAtAdd⟩])

/-- The `OrderItem.create` loop: one row per payload, consecutive ids. -/
def mkOrderItems (oid : Nat) : Nat → List OrderItemSpec → List OrderItem
  | _, [] => []
  | n, sp :: rest => ⟨n, oid, sp.productId, sp.quantity, sp.priceAtPurchase⟩ ::
      mkOrderItems oid (n + 1) rest

/-- `orderController.placeOrder` (POST /api/orders), the checkout
transaction: empty-cart guard, per-line stock validation against the
loaded snapshot, stock decrements, order and order-line creation with
`status = pending`, cart clearing.  Every failing branch rolls the
transaction back, so the original database is returned there. -/
def placeOrder (uid : Nat) (db : DB) : Resp Unit × DB :=
  match findCart db uid with
  | none => (⟨400, false, "Cart is empty", none⟩, db)
  | some cart =>
    let items := cartItemsOf db cart.id
    if items.isEmpty then
      (⟨400, false, "Cart is empty", none⟩, db)
    else
      match checkoutItems db items db 0 [] with
      | .error .productMissing => (⟨500, false, "Error placing order", none⟩, db)
      | .error (.insufficient nm avail) =>
        (⟨400, false, insufficientStockMsg nm avail, none⟩, db)
      | .ok (db1, total, specs) =>
        let oid := db1.nextId
        let order : Order := ⟨oid, uid, total, "pending"⟩
        let newLines := mkOrderItems oid (oid + 1) specs
        (⟨201, true, "Order placed successfully", none⟩,
         { db1 with
             orders := db1.orders ++ [order],
             orderItems := db1.orderItems ++ newLines,
             cartItems := db1.cartItems.filter (fun i => i.cartId != cart.id),
             nextId := oid + 1 + specs.length })

/-- The order-line payload extracted from one cart line inside the
`placeOrder` loop. -/
def lineSpec (i : CartItem) : OrderItemSpec :=
  ⟨i.productId, i.quantity, i.priceAtAdd⟩

/-- The stock decrements issued by one pass of the `placeOrder` loop. -/
def applyDecs (items : List CartItem) (db : DB) : DB :=
  items.foldl (fun d i => decrementStock d i.productId i.quantity) db

/-- The checkout total accumulated over the cart lines (in cents):
`totalAmount += parseFloat(item.priceAtAdd) * item.quantity`. -/
def sumLines (items : List CartItem) : Int :=
  (items.map (fun i => i.priceAtAdd.getD 0 * i.quantity)).sum

/-- Decidable statement that one cart line passes the checkout stock
check: its product exists and `item.quantity ≤ product.stock`. -/
def lineOk (db : DB) (i : CartItem) : Bool :=
  match findProduct db i.productId with
  | none => false
  | some p => decide (i.quantity ≤ p.stock)

/-- Decidable statement that a cart line references an existing
product. -/
def lineHasProduct (db : DB) (i : CartItem) : Bool :=
  (findProduct db i.productId).isSome

/-- `orderController.getOrderById` (GET /api/orders/:id): the lookup is
keyed on the order id and the calling user together, so a foreign order
and a missing order take the same branch. -/
def getOrderById (uid oid : Nat) (db : DB) : Resp (Order × List OrderItem) :=
  match db.orders.find? (fun o => o.id == oid && o.userId == uid) with
  | none => ⟨404, false, "Order not found", none⟩
  | some o =>
    ⟨200, true, "", some (o, db.orderItems.filter (fun i => i.orderId == o.id))⟩

/-- `orderController.updateOrderStatus` (PUT /api/orders/:id/status):
the status whitelist is checked before the order is looked up; a valid
status is written through `order.update({ status })`, touching no other
column and no other row. -/
def updateOrderStatus (oid : Nat) (status : String) (db : DB) : Resp Unit × DB :=
  if !(["pending", "completed", "cancelled"].contains status) then
    (⟨400, false, "Invalid status. Must be: pending, completed, or cancelled", none⟩, db)
  else
    match db.orders.find? (fun o => o.id == oid) with
    | none => (⟨404, false, "Order not found", none⟩, db)
    | some _ =>
      (⟨200, true, "Order status updated successfully", none⟩,
       { db with orders := db.orders.map (fun o =>
           if o.id == oid then { o with status := status } else o) })

/-- The conjunction of observable effects claimed for a successful
checkout: one pending order whose total is the sum of frozen line
prices, one order line per cart line copying quantity and frozen price,
each referenced product decremented by its line quantity, untouched
products preserved, and the cart left empty. -/
def checkoutSuccessSpec (db : DB) (uid : Nat) (cart : Cart) : Prop :=
  (placeOrder uid db).1.code = 201 ∧
  (placeOrder uid db).1.success = true ∧
  (placeOrder uid db).2.orders =
    db.orders ++ [⟨db.nextId, uid, sumLines (cartItemsOf db cart.id), "pending"⟩] ∧
  (placeOrder uid db).2.orderItems.map
      (fun oi => (oi.orderId, oi.productId, oi.quantity, oi.priceAtPurchase)) =
    db.orderItems.map (fun oi => (oi.orderId, oi.productId, oi.quantity, oi.priceAtPurchase)) ++
    (cartItemsOf db cart.id).map (fun i => (db.nextId, i.productId, i.quantity, i.priceAtAdd)) ∧
  (∀ i ∈ cartItemsOf db cart.id,
    findProduct (placeOrder uid db).2 i.productId =
      (findProduct db i.productId).map (fun p => { p with stock := p.stock - i.quantity })) ∧
  (∀ pid, (∀ i ∈ cartItemsOf db cart.id, i.productId ≠ pid) →
    findProduct (placeOrder uid db).2 pid = findProduct db pid) ∧
  cartItemsOf (placeOrder uid db).2 cart.id = [] ∧
  getCart uid (placeOrder uid db).2 = (([], 0), (placeOrder uid db).2)

/-- The store after a first `addToCart` of quantity q1 followed by a
catalog price change to v2 on the same product. -/
def addThenRepriceDB (db : DB) (uid pid : Nat) (q1 v2 : Int) : DB :=
  (updateProduct pid none (some v2) none none (addToCart uid pid q1 db).2).2

/-- Example store: one customer cart holding two lines, ample stock. -/
def exDB1 : DB :=
  { categories := [7],
    products := [⟨1, "Tablet", 39999, 15, 7⟩, ⟨2, "Mouse", 500, 10, 7⟩],
    carts := [⟨3, 1⟩],
    cartItems := [⟨4, 3, 1, 2, some 39999⟩, ⟨5, 3, 2, 1, some 500⟩],
    orders := [], orderItems := [], nextId := 6 }

/-- Example store: the cart asks for 2 units but only 1 is in stock. -/
def exDB2 : DB :=
  { categories := [7],
    products := [⟨1, "Almost Gone", 4999, 1, 7⟩],
    carts := [⟨3, 1⟩],
    cartItems := [⟨4, 3, 1, 2, some 4999⟩],
    orders := [], orderItems := [], nextId := 5 }

/-- Example store: a product with stock 5 and no cart yet. -/
def exDB3 : DB :=
  { categories := [7],
    products := [⟨1, "Widget", 1000, 5, 7⟩],
    carts := [], cartItems := [], orders := [], orderItems := [], nextId := 10 }

/-- Example store: a cart line frozen at 39999 cents before a price
change. -/
def exDB4 : DB :=
  { categories := [7],
    products := [⟨1, "Tablet", 39999, 15, 7⟩],
    carts := [⟨3, 1⟩],
    cartItems := [⟨4, 3, 1, 2, some 39999⟩],
    orders := [], orderItems := [], nextId := 5 }

/-- Example store: customer 1 already owns cart 3 holding a line for
product 2; product 1 has stock 5 and no line yet. -/
def exDB5 : DB :=
  { categories := [7],
    products := [⟨1, "Widget", 1000, 5, 7⟩, ⟨2, "Gadget", 2500, 9, 7⟩],
    carts := [⟨3, 1⟩],
    cartItems := [⟨4, 3, 2, 1, some 2500⟩],
    orders := [], orderItems := [], nextId := 10 }

/-- Example store: a cart line of quantity 2 with stock 10. -/
def exDB6 : DB :=
  { categories := [7],
    products := [⟨1, "Widget", 1000, 10, 7⟩],
    carts := [⟨3, 1⟩],
    cartItems := [⟨4, 3, 1, 2, some 1000⟩],
    orders := [], orderItems := [], nextId := 5 }

/-- Example store: one order owned by customer 42. -/
def exDB8 : DB :=
  { categories := [], products := [], carts := [], cartItems := [],
    orders := [⟨1, 42, 79998, "pending"⟩],
    orderItems := [⟨2, 1, 1, 2, some 39999⟩], nextId := 3 }

/-- `find?` commutes with a map that does not change the predicate. -/
theorem find?_map_pred_inv {α : Type} (f : α → α) (p : α → Bool)
    (h : ∀ a, p (f a) = p a) (l : List α) :
    (l.map f).find? p = (l.find? p).map f := by
  rw [List.find?_map]
  have hpf : p ∘ f = p := funext h
  rw [hpf]

/-- Effect of one stock decrement on a product lookup. -/
theorem findProduct_decrementStock (db : DB) (pid : Nat) (q : Int) (x : Nat) :
    findProduct (decrementStock db pid q) x =
      (findProduct db x).map
        (fun p => if p.id == pid then { p with stock := p.stock - q } else p) := by
  unfold findProduct decrementStock
  exact find?_map_pred_inv _ _ (fun a => by split <;> rfl) db.products

/-- Decrementing a product's stock is visible at that product. -/
theorem findProduct_decrementStock_eq (db : DB) (pid : Nat) (q : Int) :
    findProduct (decrementStock db pid q) pid =
      (findProduct db pid).map (fun p => { p with stock := p.stock - q }) := by
  rw [findProduct_decrementStock]
  cases h : findProduct db pid with
  | none => rfl
  | some p =>
    have hf := List.find?_some (show db.products.find? (fun a => a.id == pid) = some p from h)
    have hpx : p.id = pid := by simpa using hf
    simp [hpx]

/-- Decrementing one product's stock leaves other lookups unchanged. -/
theorem findProduct_decrementStock_ne (db : DB) (pid : Nat) (q : Int) (x : Nat)
    (h : x ≠ pid) :
    findProduct (decrementStock db pid q) x = findProduct db x := by
  rw [findProduct_decrementStock]
  cases h2 : findProduct db x with
  | none => rfl
  | some p =>
    have hf := List.find?_some (show db.products.find? (fun a => a.id == x) = some p from h2)
    have hpx : p.id = x := by simpa using hf
    simp [hpx, h]

theorem applyDecs_nil (db : DB) : applyDecs [] db = db := rfl

theorem applyDecs_cons (i : CartItem) (items : List CartItem) (db : DB) :
    applyDecs (i :: items) db =
      applyDecs items (decrementStock db i.productId i.quantity) := rfl

theorem applyDecs_categories (items : List CartItem) (db : DB) :
    (applyDecs items db).categories = db.categories := by
  induction items generalizing db with
  | nil => rfl
  | cons i rest ih => rw [applyDecs_cons, ih]; rfl

theorem applyDecs_carts (items : List CartItem) (db : DB) :
    (applyDecs items db).carts = db.carts := by
  induction items generalizing db with
  | nil => rfl
  | cons i rest ih => rw [applyDecs_cons, ih]; rfl

theorem applyDecs_cartItems (items : List CartItem) (db : DB) :
    (applyDecs items db).cartItems = db.cartItems := by
  induction items generalizing db with
  | nil => rfl
  | cons i rest ih => rw [applyDecs_cons, ih]; rfl

theorem applyDecs_orders (items : List CartItem) (db : DB) :
    (applyDecs items db).orders = db.orders := by
  induction items generalizing db with
  | nil => rfl
  | cons i rest ih => rw [applyDecs_cons, ih]; rfl

theorem applyDecs_orderItems (items : List CartItem) (db : DB) :
    (applyDecs items db).orderItems = db.orderItems := by
  induction items generalizing db with
  | nil => rfl
  | cons i rest ih => rw [applyDecs_cons, ih]; rfl

theorem applyDecs_nextId (items : List CartItem) (db : DB) :
    (applyDecs items db).nextId = db.nextId := by
  induction items generalizing db with
  | nil => rfl
  | cons i rest ih => rw [applyDecs_cons, ih]; rfl

/-- Products not referenced by any processed line keep their row. -/
theorem findProduct_applyDecs_not_mem (items : List CartItem) (db : DB) (pid : Nat)
    (h : ∀ i ∈ items, i.productId ≠ pid) :
    findProduct (applyDecs items db) pid = findProduct db pid := by
  induction items generalizing db with
  | nil => rfl
  | cons j rest ih =>
    rw [applyDecs_cons, ih _ (fun i hi => h i (List.mem_cons_of_mem j hi))]
    exact findProduct_decrementStock_ne db j.productId j.quantity pid
      (fun he => h j (List.mem_cons_self j rest) he.symm)

/-- With pairwise-distinct product references (the one-line-per-product
cart invariant), the loop decrements each referenced product by exactly
its line's quantity. -/
theorem findProduct_applyDecs_mem (items : List CartItem) (db : DB)
    (hnd : (items.map (fun i => i.productId)).Nodup) (i : CartItem) (hi : i ∈ items) :
    findProduct (applyDecs items db) i.productId =
      (findProduct db i.productId).map (fun p => { p with stock := p.stock - i.quantity }) := by
  induction items generalizing db with
  | nil => cases hi
  | cons j rest ih =>
    have hnd2 : (∀ x ∈ rest, x.productId ≠ j.productId) ∧
        (rest.map (fun i => i.productId)).Nodup := by simpa using hnd
    rw [applyDecs_cons]
    rcases List.mem_cons.mp hi with hij | hir
    · subst hij
      rw [findProduct_applyDecs_not_mem rest _ i.productId
        (fun r hr => hnd2.1 r hr)]
      exact findProduct_decrementStock_eq db i.productId i.quantity
    · rw [ih _ hnd2.2 hir, findProduct_decrementStock_ne db j.productId j.quantity
        i.productId (hnd2.1 i hir)]

theorem sumLines_nil : sumLines [] = 0 := rfl

theorem sumLines_cons (i : CartItem) (rest : List CartItem) :
    sumLines (i :: rest) = i.priceAtAdd.getD 0 * i.quantity + sumLines rest := by
  simp [sumLines]

/-- When every line passes the stock check against the snapshot, the
checkout loop succeeds, returning the decremented store, the line total
and the order-line payloads in cart order. -/
theorem checkoutItems_ok (db0 : DB) (items : List CartItem)
    (h : ∀ i ∈ items, lineOk db0 i = true) :
    ∀ (db : DB) (total : Int) (acc : List OrderItemSpec),
      checkoutItems db0 items db total acc =
        .ok (applyDecs items db, total + sumLines items, acc ++ items.map lineSpec) := by
  induction items with
  | nil => intro db total acc; simp [checkoutItems, applyDecs_nil, sumLines_nil]
  | cons i rest ih =>
    intro db total acc
    have hok := h i (List.mem_cons_self i rest)
    unfold lineOk at hok
    cases hfp : findProduct db0 i.productId with
    | none => rw [hfp] at hok; cases hok
    | some p =>
      rw [hfp] at hok
      have hle : i.quantity ≤ p.stock := of_decide_eq_true hok
      have hnl : ¬ p.stock < i.quantity := not_lt.mpr hle
      simp only [checkoutItems, hfp]
      rw [if_neg hnl,
        ih (fun x hx => h x (List.mem_cons_of_mem i hx)) _ _ _,
        applyDecs_cons, sumLines_cons]
      have htot : total + i.priceAtAdd.getD 0 * i.quantity + sumLines rest =
          total + (i.priceAtAdd.getD 0 * i.quantity + sumLines rest) := by ring
      rw [htot]
      simp [lineSpec]

/-- When every line references an existing product and some line fails
the stock check, the checkout loop reports InsufficientStock for such a
line, naming that product and its available stock. -/
theorem checkoutItems_insufficient (db0 : DB) (items : List CartItem)
    (hall : ∀ i ∈ items, lineHasProduct db0 i = true)
    (hbad : ∃ i ∈ items, lineOk db0 i = false) :
    ∀ (db : DB) (total : Int) (acc : List OrderItemSpec),
      ∃ i ∈ items, ∃ p, findProduct db0 i.productId = some p ∧
        p.stock < i.quantity ∧
        checkoutItems db0 items db total acc = .error (.insufficient p.name p.stock) := by
  induction items with
  | nil => rcases hbad with ⟨i, hi, _⟩; cases hi
  | cons j rest ih =>
    intro db total acc
    have hj := hall j (List.mem_cons_self j rest)
    unfold lineHasProduct at hj
    cases hfp : findProduct db0 j.productId with
    | none => rw [hfp] at hj; cases hj
    | some p =>
      by_cases hlt : p.stock < j.quantity
      · refine ⟨j, List.mem_cons_self j rest, p, hfp, hlt, ?_⟩
        simp only [checkoutItems, hfp]
        rw [if_pos hlt]
      · have hjok : lineOk db0 j = true := by
          unfold lineOk
          rw [hfp]
          exact decide_eq_true (not_lt.mp hlt)
        have hbad2 : ∃ i ∈ rest, lineOk db0 i = false := by
          rcases hbad with ⟨i, hi, hif⟩
          rcases List.mem_cons.mp hi with hij | hir
          · subst hij; rw [hjok] at hif; cases hif
          · exact ⟨i, hir, hif⟩
        rcases ih (fun x hx => hall x (List.mem_cons_of_mem j hx)) hbad2
            (decrementStock db j.productId j.quantity)
            (total + j.priceAtAdd.getD 0 * j.quantity)
            (acc ++ [lineSpec j]) with ⟨i, hir, q, hq, hqlt, heq⟩
        refine ⟨i, List.mem_cons_of_mem j hir, q, hq, hqlt, ?_⟩
        simp only [checkoutItems, hfp]
        rw [if_neg hlt]
        exact heq

/-- The rows created by the order-line loop copy their payloads: order
id, product, quantity and `priceAtPurchase` in order. -/
theorem mkOrderItems_map (oid : Nat) :
    ∀ (n : Nat) (specs : List OrderItemSpec),
      (mkOrderItems oid n specs).map
          (fun oi => (oi.orderId, oi.productId, oi.quantity, oi.priceAtPurchase)) =
        specs.map (fun sp => (oid, sp.productId, sp.quantity, sp.priceAtPurchase)) := by
  intro n specs
  induction specs generalizing n with
  | nil => rfl
  | cons sp rest ih => simp [mkOrderItems, ih]

/-- The fully explicit outcome of a checkout in which every line passes
the stock check: one pending order totalling the frozen line prices, one
order line per cart line, all stocks decremented, the cart emptied. -/
theorem placeOrder_ok (db : DB) (uid : Nat) (cart : Cart)
    (hc : findCart db uid = some cart)
    (hne : cartItemsOf db cart.id ≠ [])
    (hok : ∀ i ∈ cartItemsOf db cart.id, lineOk db i = true) :
    placeOrder uid db =
      (⟨201, true, "Order placed successfully", none⟩,
       { categories := db.categories,
         products := (applyDecs (cartItemsOf db cart.id) db).products,
         carts := db.carts,
         cartItems := db.cartItems.filter (fun i => i.cartId != cart.id),
         orders := db.orders ++ [⟨db.nextId, uid, sumLines (cartItemsOf db cart.id), "pending"⟩],
         orderItems := db.orderItems ++
           mkOrderItems db.nextId (db.nextId + 1) ((cartItemsOf db cart.id).map lineSpec),
         nextId := db.nextId + 1 + (cartItemsOf db cart.id).length }) := by
  unfold placeOrder
  rw [hc]
  simp only [List.isEmpty_eq_false.mpr hne, if_neg Bool.false_ne_true]
  rw [checkoutItems_ok db (cartItemsOf db cart.id) hok db 0 []]
  simp [applyDecs_categories, applyDecs_carts, applyDecs_cartItems,
    applyDecs_orders, applyDecs_orderItems, applyDecs_nextId]

/-- C1: for every customer whose selection is non-empty and every line
within the referenced product's available stock, `placeOrder` creates
exactly one pending order totalling Σ frozenUnitPrice × quantity (in
cents, i.e. already rounded to two decimal places), creates one order
line per selection line copying quantity and priceAtPurchase =
frozenUnitPrice, decrements each involved product's stock by exactly the
line quantity, and deletes all of the selection's lines. -/
theorem placeOrder_success_claim (db : DB) (uid : Nat) (cart : Cart)
    (hc : findCart db uid = some cart)
    (hne : cartItemsOf db cart.id ≠ [])
    (hok : ∀ i ∈ cartItemsOf db cart.id, lineOk db i = true)
    (hnd : ((cartItemsOf db cart.id).map (fun i => i.productId)).Nodup) :
    checkoutSuccessSpec db uid cart := by
  unfold checkoutSuccessSpec
  rw [placeOrder_ok db uid cart hc hne hok]
  have hEmpty :
      (List.filter (fun i => i.cartId != cart.id) db.cartItems).filter
        (fun i => i.cartId == cart.id) = [] := by
    rw [List.filter_eq_nil_iff]
    intro a ha
    have hmem := List.mem_filter.mp ha
    simp at hmem ⊢
    exact hmem.2
  refine ⟨rfl, rfl, rfl, ?_, ?_, ?_, ?_, ?_⟩
  · simp [mkOrderItems_map, List.map_map, lineSpec, Function.comp]
  · intro i hi
    exact findProduct_applyDecs_mem (cartItemsOf db cart.id) db hnd i hi
  · intro pid hp
    exact findProduct_applyDecs_not_mem (cartItemsOf db cart.id) db pid hp
  · simp [cartItemsOf, hEmpty]
  · show (match findCart db uid with
      | some c => ((cartItemsOf _ c.id, cartTotal (cartItemsOf _ c.id)), _)
      | none => _) = _
    rw [hc]
    simp [cartItemsOf, hEmpty, cartTotal]

/-- Witness for C1 at a concrete two-line cart. -/
theorem placeOrder_success_claim_witness :
    findCart exDB1 1 = some ⟨3, 1⟩ ∧ checkoutSuccessSpec exDB1 1 ⟨3, 1⟩ :=
  ⟨rfl, placeOrder_success_claim exDB1 1 ⟨3, 1⟩ rfl (by decide) (by decide) (by decide)⟩

/-- C2: when every line references an existing product but some line's
quantity exceeds its product's current stock, `placeOrder` fails with
the InsufficientStock message naming the offending product and its
available quantity, and the whole store — orders, order lines, cart
lines and stocks — is exactly as before the call (full rollback). -/
theorem placeOrder_insufficient_claim (db : DB) (uid : Nat) (cart : Cart)
    (hc : findCart db uid = some cart)
    (hne : cartItemsOf db cart.id ≠ [])
    (hall : ∀ i ∈ cartItemsOf db cart.id, lineHasProduct db i = true)
    (hbad : ∃ i ∈ cartItemsOf db cart.id, lineOk db i = false) :
    ∃ i ∈ cartItemsOf db cart.id, ∃ p,
      findProduct db i.productId = some p ∧ p.stock < i.quantity ∧
      placeOrder uid db =
        (⟨400, false, insufficientStockMsg p.name p.stock, none⟩, db) := by
  rcases checkoutItems_insufficient db (cartItemsOf db cart.id) hall hbad db 0 []
    with ⟨i, hi, p, hp, hlt, heq⟩
  refine ⟨i, hi, p, hp, hlt, ?_⟩
  unfold placeOrder
  rw [hc]
  simp only [List.isEmpty_eq_false.mpr hne, if_neg Bool.false_ne_true]
  rw [heq]

/-- Witness for C2: a cart asking for 2 units of a product with stock 1. -/
theorem placeOrder_insufficient_claim_witness :
    findCart exDB2 1 = some ⟨3, 1⟩ ∧
    (∃ i ∈ cartItemsOf exDB2 3, ∃ p,
      findProduct exDB2 i.productId = some p ∧ p.stock < i.quantity ∧
      placeOrder 1 exDB2 =
        (⟨400, false, insufficientStockMsg p.name p.stock, none⟩, exDB2)) :=
  ⟨rfl, placeOrder_insufficient_claim exDB2 1 ⟨3, 1⟩ rfl (by decide) (by decide) (by decide)⟩

/-- C3 counterexample: with no cart yet and a product whose stock is 5,
adding quantity 100 succeeds (HTTP 200) and creates the line — the
fresh-line branch of `addToCart` performs no stock check, so the claimed
failure does not occur and the selection does change. -/
theorem addToCart_newline_no_stock_check_counterexample :
    (findProduct exDB3 1).map Product.stock = some 5 ∧
    (addToCart 1 1 100 exDB3).1.success = true ∧
    (addToCart 1 1 100 exDB3).1.code = 200 ∧
    (addToCart 1 1 100 exDB3).2.cartItems = [⟨11, 10, 1, 100, some 1000⟩] := by
  decide

/-- C3 amended: an `addToCart` call for an existing product with no
existing line for it in the customer's selection always succeeds,
creating a line with the requested quantity and `frozenUnitPrice` equal
to the product's current price — with no stock check, even when the
quantity exceeds the available stock. -/
theorem addToCart_newline_amended (db : DB) (uid pid : Nat) (q : Int) (p : Product)
    (hp : findProduct db pid = some p)
    (hnoline : ∀ c, findCart db uid = some c → findCartItem db c.id pid = none)
    (hfresh : ∀ i ∈ db.cartItems, i.cartId ≠ db.nextId) :
    ∃ itemId cartId,
      (addToCart uid pid q db).1 = ⟨200, true, "Item added to cart successfully", none⟩ ∧
      (addToCart uid pid q db).2.cartItems =
        db.cartItems ++ [⟨itemId, cartId, pid, q, some p.price⟩] := by
  cases hfc : findCart db uid with
  | some c =>
    refine ⟨db.nextId, c.id, ?_⟩
    have hni := hnoline c hfc
    simp only [addToCart, hp, hfc, hni]
    exact ⟨trivial, trivial⟩
  | none =>
    refine ⟨db.nextId + 1, db.nextId, ?_⟩
    have hni : findCartItem
        { db with carts := db.carts ++ [⟨db.nextId, uid⟩], nextId := db.nextId + 1 }
        db.nextId pid = none := by
      apply List.find?_eq_none.mpr
      intro i hi
      simp [hfresh i hi]
    simp only [addToCart, hp, hfc, hni]
    exact ⟨trivial, trivial⟩

/-- Witness for the amended C3 at a concrete fresh cart. -/
theorem addToCart_newline_amended_witness :
    findProduct exDB3 1 = some ⟨1, "Widget", 1000, 5, 7⟩ ∧
    (∃ itemId cartId,
      (addToCart 1 1 3 exDB3).1 = ⟨200, true, "Item added to cart successfully", none⟩ ∧
      (addToCart 1 1 3 exDB3).2.cartItems =
        [⟨itemId, cartId, 1, 3, some 1000⟩]) :=
  ⟨rfl, addToCart_newline_amended exDB3 1 1 3 ⟨1, "Widget", 1000, 5, 7⟩ rfl
    (fun c hc => by rw [show findCart exDB3 1 = none from rfl] at hc; cases hc)
    (by decide)⟩

/-- `updateProduct` never touches cart lines. -/
theorem updateProduct_cartItems (pid : Nat) (nm : Option String)
    (price stock : Option Int) (cat : Option Nat) (db : DB) :
    (updateProduct pid nm price stock cat db).2.cartItems = db.cartItems := by
  unfold updateProduct
  cases findProduct db pid with
  | none => rfl
  | some p => dsimp only; split <;> rfl

/-- The rows created by the order-line loop copy product, quantity and
`priceAtPurchase` from their payloads. -/
theorem mkOrderItems_map2 (oid : Nat) :
    ∀ (n : Nat) (specs : List OrderItemSpec),
      (mkOrderItems oid n specs).map
          (fun oi => (oi.productId, oi.quantity, oi.priceAtPurchase)) =
        specs.map (fun sp => (sp.productId, sp.quantity, sp.priceAtPurchase)) := by
  intro n specs
  induction specs generalizing n with
  | nil => rfl
  | cons sp rest ih => simp [mkOrderItems, ih]

/-- C4: a catalog product update (price change included) leaves every
selection line — in particular its `frozenUnitPrice` — untouched, and a
checkout performed afterwards copies `priceAtPurchase` from the frozen
line values, not from the product's current price. -/
theorem priceFreeze_claim (db db2 : DB) (pid : Nat) (nm : Option String)
    (newPrice newStock : Option Int) (cat : Option Nat) (uid : Nat) (cart : Cart)
    (hupd : db2 = (updateProduct pid nm newPrice newStock cat db).2)
    (hc : findCart db2 uid = some cart)
    (hne : cartItemsOf db2 cart.id ≠ [])
    (hok : ∀ i ∈ cartItemsOf db2 cart.id, lineOk db2 i = true) :
    db2.cartItems = db.cartItems ∧
    (placeOrder uid db2).2.orderItems.map
        (fun oi => (oi.productId, oi.quantity, oi.priceAtPurchase)) =
      db2.orderItems.map (fun oi => (oi.productId, oi.quantity, oi.priceAtPurchase)) ++
      (cartItemsOf db2 cart.id).map (fun i => (i.productId, i.quantity, i.priceAtAdd)) := by
  constructor
  · rw [hupd]
    exact updateProduct_cartItems pid nm newPrice newStock cat db
  · rw [placeOrder_ok db2 uid cart hc hne hok]
    simp [mkOrderItems_map2, List.map_map, lineSpec, Function.comp]

/-- Witness for C4: price changed from 39999 to 49999 after the line was
frozen; the order line still carries 39999. -/
theorem priceFreeze_claim_witness :
    (findProduct (updateProduct 1 none (some 49999) none none exDB4).2 1).map
        Product.price = some 49999 ∧
    ((updateProduct 1 none (some 49999) none none exDB4).2.cartItems = exDB4.cartItems ∧
     (placeOrder 1 (updateProduct 1 none (some 49999) none none exDB4).2).2.orderItems.map
         (fun oi => (oi.productId, oi.quantity, oi.priceAtPurchase)) =
       (updateProduct 1 none (some 49999) none none exDB4).2.orderItems.map
           (fun oi => (oi.productId, oi.quantity, oi.priceAtPurchase)) ++
       (cartItemsOf (updateProduct 1 none (some 49999) none none exDB4).2 3).map
           (fun i => (i.productId, i.quantity, i.priceAtAdd))) :=
  ⟨by decide,
   priceFreeze_claim exDB4 _ 1 none (some 49999) none none 1 ⟨3, 1⟩ rfl (by decide)
     (by decide) (by decide)⟩

/-- Updating a line by id touches only that line when ids are unique. -/
theorem map_update_append_singleton (l : List CartItem) (a b : CartItem)
    (h : ∀ i ∈ l, i.id ≠ a.id) :
    (l ++ [a]).map (fun i => if i.id == a.id then b else i) = l ++ [b] := by
  rw [List.map_append]
  have h1 : l.map (fun i => if i.id == a.id then b else i) = l := by
    conv_rhs => rw [show l = l.map id from (List.map_id l).symm]
    apply List.map_congr_left
    intro i hi
    simp [h i hi]
  rw [h1]
  simp

/-- The explicit store produced by a first `addToCart` on a user with no
cart yet: the cart row and a line frozen at the product's current price. -/
theorem addToCart_fresh_eq (db : DB) (uid pid : Nat) (q1 : Int) (p : Product)
    (hp : findProduct db pid = some p)
    (hnc : findCart db uid = none)
    (hfr : ∀ i ∈ db.cartItems, i.cartId ≠ db.nextId) :
    (addToCart uid pid q1 db).2 =
      { db with
          carts := db.carts ++ [⟨db.nextId, uid⟩],
          cartItems := db.cartItems ++ [⟨db.nextId + 1, db.nextId, pid, q1, some p.price⟩],
          nextId := db.nextId + 2 } := by
  have hni : findCartItem
      { db with carts := db.carts ++ [⟨db.nextId, uid⟩], nextId := db.nextId + 1 }
      db.nextId pid = none := by
    apply List.find?_eq_none.mpr
    intro i hi
    simp [hfr i hi]
  simp only [addToCart, hp, hnc, hni]

/-- Explicit form of the store after a fresh add and a price change:
only the product's price moved; the frozen line still carries the price
of the first add. -/
theorem addThenRepriceDB_eq (db : DB) (uid pid : Nat) (q1 v2 : Int) (p : Product)
    (hp : findProduct db pid = some p)
    (hnc : findCart db uid = none)
    (hfr : ∀ i ∈ db.cartItems, i.cartId ≠ db.nextId) :
    addThenRepriceDB db uid pid q1 v2 =
      { db with
          products := db.products.map
            (fun r => if r.id == pid then { r with price := v2 } else r),
          carts := db.carts ++ [⟨db.nextId, uid⟩],
          cartItems := db.cartItems ++ [⟨db.nextId + 1, db.nextId, pid, q1, some p.price⟩],
          nextId := db.nextId + 2 } := by
  unfold addThenRepriceDB
  rw [addToCart_fresh_eq db uid pid q1 p hp hnc hfr]
  have hp1 : findProduct
      { db with
          carts := db.carts ++ [⟨db.nextId, uid⟩],
          cartItems := db.cartItems ++ [⟨db.nextId + 1, db.nextId, pid, q1, some p.price⟩],
          nextId := db.nextId + 2 } pid = some p := hp
  simp only [updateProduct, hp1]
  rw [if_pos trivial]
  rfl

/-- A list with no matching element followed by one matching element
filters to exactly that element. -/
theorem filter_append_singleton {α : Type} (l : List α) (a : α) (pr : α → Bool)
    (h : ∀ x ∈ l, pr x = false) (ha : pr a = true) :
    (l ++ [a]).filter pr = [a] := by
  rw [List.filter_append,
    List.filter_eq_nil_iff.mpr (fun x hx => by simp [h x hx])]
  simp [ha]

/-- The explicit store produced by an `addToCart` for a product with no
existing line, on a customer whose cart row already exists. -/
theorem addToCart_existing_noline_eq (db : DB) (uid pid : Nat) (q1 : Int)
    (p : Product) (c : Cart)
    (hp : findProduct db pid = some p)
    (hc : findCart db uid = some c)
    (hni : findCartItem db c.id pid = none) :
    (addToCart uid pid q1 db).2 =
      { db with
          cartItems := db.cartItems ++ [⟨db.nextId, c.id, pid, q1, some p.price⟩],
          nextId := db.nextId + 1 } := by
  simp only [addToCart, hp, hc, hni]

/-- Explicit form of the store after an add into an existing cart and a
price change: only the product's price moved; the frozen line still
carries the price of the add. -/
theorem addThenRepriceDB_existing_eq (db : DB) (uid pid : Nat) (q1 v2 : Int)
    (p : Product) (c : Cart)
    (hp : findProduct db pid = some p)
    (hc : findCart db uid = some c)
    (hni : findCartItem db c.id pid = none) :
    addThenRepriceDB db uid pid q1 v2 =
      { db with
          products := db.products.map
            (fun r => if r.id == pid then { r with price := v2 } else r),
          cartItems := db.cartItems ++ [⟨db.nextId, c.id, pid, q1, some p.price⟩],
          nextId := db.nextId + 1 } := by
  unfold addThenRepriceDB
  rw [addToCart_existing_noline_eq db uid pid q1 p c hp hc hni]
  have hp1 : findProduct
      { db with
          cartItems := db.cartItems ++ [⟨db.nextId, c.id, pid, q1, some p.price⟩],
          nextId := db.nextId + 1 } pid = some p := hp
  simp only [updateProduct, hp1]
  rw [if_pos trivial]
  rfl

/-- Updating the line with a given id touches only the final singleton
when the other lines carry different ids. -/
theorem map_update_append_singleton2 (l : List CartItem) (a b : CartItem) (n : Nat)
    (ha : a.id = n) (h : ∀ i ∈ l, i.id ≠ n) :
    (l ++ [a]).map (fun i => if i.id == n then b else i) = l ++ [b] := by
  rw [List.map_append]
  have h1 : l.map (fun i => if i.id == n then b else i) = l := by
    conv_rhs => rw [show l = l.map id from (List.map_id l).symm]
    apply List.map_congr_left
    intro i hi
    simp [h i hi]
  rw [h1]
  simp [ha]

/-- A second `addToCart` of the same product merges into the unique
existing line: it fails naming the available stock when the merged
quantity exceeds it (store unchanged), and otherwise stores the summed
quantity while keeping the frozen price. -/
theorem addToCart_merge_second (D : DB) (uid pid cid itemId : Nat)
    (q1 q2 v2 : Int) (p : Product) (l : List CartItem)
    (hp2 : findProduct D pid = some { p with price := v2 })
    (hfc2 : findCart D uid = some ⟨cid, uid⟩)
    (hcart : D.cartItems = l ++ [⟨itemId, cid, pid, q1, some p.price⟩])
    (hids : ∀ i ∈ l, i.id ≠ itemId)
    (hnopid : ∀ i ∈ l, (i.cartId == cid && i.productId == pid) = false) :
    (p.stock < q1 + q2 →
      addToCart uid pid q2 D = (⟨400, false, insufficientAddMsg p.stock, none⟩, D) ∧
      D.cartItems.filter (fun i => i.cartId == cid && i.productId == pid) =
        [⟨itemId, cid, pid, q1, some p.price⟩]) ∧
    (¬ p.stock < q1 + q2 →
      (addToCart uid pid q2 D).1 = ⟨200, true, "Item added to cart successfully", none⟩ ∧
      (addToCart uid pid q2 D).2.cartItems.filter
          (fun i => i.cartId == cid && i.productId == pid) =
        [⟨itemId, cid, pid, q1 + q2, some p.price⟩]) := by
  have hfi : findCartItem D cid pid = some ⟨itemId, cid, pid, q1, some p.price⟩ := by
    show D.cartItems.find? (fun i => i.cartId == cid && i.productId == pid) = _
    rw [hcart, List.find?_append,
      List.find?_eq_none.mpr (fun i hi => by simp [hnopid i hi])]
    simp
  constructor
  · intro hlt
    constructor
    · simp only [addToCart, hp2, hfc2, hfi]
      rw [if_pos hlt]
    · rw [hcart]
      exact filter_append_singleton _ _ _ hnopid (by simp)
  · intro hnl
    constructor
    · simp only [addToCart, hp2, hfc2, hfi]
      rw [if_neg hnl]
    · simp only [addToCart, hp2, hfc2, hfi]
      rw [if_neg hnl]
      show ((D.cartItems.map _).filter _) = _
      rw [hcart, map_update_append_singleton2 l _ _ itemId rfl hids]
      rw [filter_append_singleton _ _ _ hnopid (by simp)]

/-- C5: for every customer — whether or not a cart row already exists,
as long as the cart holds no line for product P yet — adding quantity
q1 of P, then changing P's price, then adding quantity q2 of P leaves
the selection with a single line for P: quantity q1 + q2 at the price
frozen at the first add when q1 + q2 is within the available stock, and
otherwise the second add fails naming the available count while the
line keeps quantity q1. -/
theorem addLine_merge_claim (db : DB) (uid pid : Nat) (q1 q2 v2 : Int) (p : Product)
    (hp : findProduct db pid = some p)
    (hnoline : ∀ c, findCart db uid = some c → findCartItem db c.id pid = none)
    (hfr : ∀ i ∈ db.cartItems, i.cartId ≠ db.nextId)
    (hfr2 : ∀ i ∈ db.cartItems, i.id ≠ db.nextId ∧ i.id ≠ db.nextId + 1) :
    ∃ cid itemId,
      findCart (addThenRepriceDB db uid pid q1 v2) uid = some ⟨cid, uid⟩ ∧
      (p.stock < q1 + q2 →
        addToCart uid pid q2 (addThenRepriceDB db uid pid q1 v2) =
          (⟨400, false, insufficientAddMsg p.stock, none⟩,
           addThenRepriceDB db uid pid q1 v2) ∧
        (addThenRepriceDB db uid pid q1 v2).cartItems.filter
            (fun i => i.cartId == cid && i.productId == pid) =
          [⟨itemId, cid, pid, q1, some p.price⟩]) ∧
      (¬ p.stock < q1 + q2 →
        (addToCart uid pid q2 (addThenRepriceDB db uid pid q1 v2)).1 =
          ⟨200, true, "Item added to cart successfully", none⟩ ∧
        (addToCart uid pid q2 (addThenRepriceDB db uid pid q1 v2)).2.cartItems.filter
            (fun i => i.cartId == cid && i.productId == pid) =
          [⟨itemId, cid, pid, q1 + q2, some p.price⟩]) := by
  have hpx : p.id = pid := by
    simpa using
      List.find?_some (show db.products.find? (fun a => a.id == pid) = some p from hp)
  cases hc : findCart db uid with
  | none =>
    have hD := addThenRepriceDB_eq db uid pid q1 v2 p hp hc hfr
    have hp2 : findProduct (addThenRepriceDB db uid pid q1 v2) pid =
        some { p with price := v2 } := by
      rw [hD]
      show (db.products.map
        (fun r => if r.id == pid then { r with price := v2 } else r)).find?
          (fun a => a.id == pid) = _
      rw [find?_map_pred_inv _ _ (fun a => by split <;> rfl) db.products]
      rw [show db.products.find? (fun a => a.id == pid) = some p from hp]
      simp [hpx]
    have hfc2 : findCart (addThenRepriceDB db uid pid q1 v2) uid =
        some ⟨db.nextId, uid⟩ := by
      rw [hD]
      show (db.carts ++ [(⟨db.nextId, uid⟩ : Cart)]).find? (fun c => c.userId == uid) = _
      rw [List.find?_append, show db.carts.find? (fun c => c.userId == uid) = none from hc]
      simp
    have hcart : (addThenRepriceDB db uid pid q1 v2).cartItems =
        db.cartItems ++ [⟨db.nextId + 1, db.nextId, pid, q1, some p.price⟩] := by
      rw [hD]
    have hm := addToCart_merge_second (addThenRepriceDB db uid pid q1 v2) uid pid
      db.nextId (db.nextId + 1) q1 q2 v2 p db.cartItems hp2 hfc2 hcart
      (fun i hi => (hfr2 i hi).2) (fun i hi => by simp [hfr i hi])
    exact ⟨db.nextId, db.nextId + 1, hfc2, hm.1, hm.2⟩
  | some c =>
    obtain ⟨cidv, cuid⟩ := c
    have hcu : cuid = uid := by
      simpa using
        List.find?_some
          (show db.carts.find? (fun x => x.userId == uid) = some ⟨cidv, cuid⟩ from hc)
    subst hcu
    have hni : findCartItem db cidv pid = none := hnoline ⟨cidv, cuid⟩ hc
    have hD := addThenRepriceDB_existing_eq db cuid pid q1 v2 p ⟨cidv, cuid⟩ hp hc hni
    have hp2 : findProduct (addThenRepriceDB db cuid pid q1 v2) pid =
        some { p with price := v2 } := by
      rw [hD]
      show (db.products.map
        (fun r => if r.id == pid then { r with price := v2 } else r)).find?
          (fun a => a.id == pid) = _
      rw [find?_map_pred_inv _ _ (fun a => by split <;> rfl) db.products]
      rw [show db.products.find? (fun a => a.id == pid) = some p from hp]
      simp [hpx]
    have hfc2 : findCart (addThenRepriceDB db cuid pid q1 v2) cuid =
        some ⟨cidv, cuid⟩ := by
      rw [hD]
      exact hc
    have hcart : (addThenRepriceDB db cuid pid q1 v2).cartItems =
        db.cartItems ++ [⟨db.nextId, cidv, pid, q1, some p.price⟩] := by
      rw [hD]
    have hnop : ∀ i ∈ db.cartItems, (i.cartId == cidv && i.productId == pid) = false := by
      intro i hi
      have hne := List.find?_eq_none.mp
        (show db.cartItems.find?
          (fun x => x.cartId == cidv && x.productId == pid) = none from hni) i hi
      simpa using hne
    have hm := addToCart_merge_second (addThenRepriceDB db cuid pid q1 v2) cuid pid
      cidv db.nextId q1 q2 v2 p db.cartItems hp2 hfc2 hcart
      (fun i hi => (hfr2 i hi).1) hnop
    exact ⟨cidv, db.nextId, hfc2, hm.1, hm.2⟩

/-- Witness for C5 on a customer whose cart already holds a line for a
different product: add 2 of product 1, price change 1000 → 2000, add 2
again; the cart holds a single line for product 1 with quantity 4 at
the original frozen price 1000. -/
theorem addLine_merge_claim_witness :
    findCart exDB5 1 = some ⟨3, 1⟩ ∧
    (∃ cid itemId,
      findCart (addThenRepriceDB exDB5 1 1 2 2000) 1 = some ⟨cid, 1⟩ ∧
      ((5 : Int) < 2 + 2 →
        addToCart 1 1 2 (addThenRepriceDB exDB5 1 1 2 2000) =
          (⟨400, false, insufficientAddMsg 5, none⟩, addThenRepriceDB exDB5 1 1 2 2000) ∧
        (addThenRepriceDB exDB5 1 1 2 2000).cartItems.filter
            (fun i => i.cartId == cid && i.productId == 1) =
          [⟨itemId, cid, 1, 2, some 1000⟩]) ∧
      (¬ (5 : Int) < 2 + 2 →
        (addToCart 1 1 2 (addThenRepriceDB exDB5 1 1 2 2000)).1 =
          ⟨200, true, "Item added to cart successfully", none⟩ ∧
        (addToCart 1 1 2 (addThenRepriceDB exDB5 1 1 2 2000)).2.cartItems.filter
            (fun i => i.cartId == cid && i.productId == 1) =
          [⟨itemId, cid, 1, 4, some 1000⟩])) :=
  ⟨rfl,
   addLine_merge_claim exDB5 1 1 2 2 2000 ⟨1, "Widget", 1000, 5, 7⟩ rfl
     (by
       intro c hcx
       have h0 : some (⟨3, 1⟩ : Cart) = some c := hcx
       cases Option.some.inj h0
       decide)
     (by decide) (by decide)⟩

/-- C6: `updateCartItem` fails with NotFound when the line is not in the
caller's cart (either no cart or no such line), with InvalidInput when
the quantity is below 1, with InsufficientStock naming the available
count when the quantity exceeds the product's current stock, and
otherwise overwrites the quantity absolutely, leaving `priceAtAdd` and
everything else untouched. -/
theorem updateLine_claim (db : DB) (uid itemId : Nat) (q : Int) :
    (findCart db uid = none →
      updateCartItem uid itemId q db = (⟨404, false, "Cart not found", none⟩, db)) ∧
    (∀ cart, findCart db uid = some cart →
      db.cartItems.find? (fun i => i.id == itemId && i.cartId == cart.id) = none →
      updateCartItem uid itemId q db = (⟨404, false, "Cart item not found", none⟩, db)) ∧
    (∀ cart item, findCart db uid = some cart →
      db.cartItems.find? (fun i => i.id == itemId && i.cartId == cart.id) = some item →
      q < 1 →
      updateCartItem uid itemId q db =
        (⟨400, false, "Quantity must be at least 1", none⟩, db)) ∧
    (∀ cart item p, findCart db uid = some cart →
      db.cartItems.find? (fun i => i.id == itemId && i.cartId == cart.id) = some item →
      ¬ q < 1 →
      findProduct db item.productId = some p →
      p.stock < q →
      updateCartItem uid itemId q db =
        (⟨400, false, insufficientUpdateMsg p.stock, none⟩, db)) ∧
    (∀ cart item p, findCart db uid = some cart →
      db.cartItems.find? (fun i => i.id == itemId && i.cartId == cart.id) = some item →
      ¬ q < 1 →
      findProduct db item.productId = some p →
      ¬ p.stock < q →
      updateCartItem uid itemId q db =
        (⟨200, true, "Cart item updated successfully", none⟩,
         { db with cartItems := List.map (fun i => if i.id == item.id then { item with quantity := q } else i) db.cartItems })) := by
  refine ⟨?_, ?_, ?_, ?_, ?_⟩
  · intro hc
    simp only [updateCartItem, hc]
  · intro cart hc hni
    simp only [updateCartItem, hc, hni]
  · intro cart item hc hit hq
    simp only [updateCartItem, hc, hit]
    rw [if_pos hq]
  · intro cart item p hc hit hnq hp hlt
    simp only [updateCartItem, hc, hit, hp]
    rw [if_neg hnq, if_pos hlt]
  · intro cart item p hc hit hnq hp hnl
    simp only [updateCartItem, hc, hit, hp]
    rw [if_neg hnq, if_neg hnl]

/-- Witness for C6: setting quantity 7 on a line of quantity 2 stores 7
absolutely and keeps the frozen price. -/
theorem updateLine_claim_witness :
    updateCartItem 1 4 7 exDB6 =
      (⟨200, true, "Cart item updated successfully", none⟩,
       { exDB6 with cartItems := [⟨4, 3, 1, 7, some 1000⟩] }) :=
  ((updateLine_claim exDB6 1 4 7).2.2.2.2 ⟨3, 1⟩ ⟨4, 3, 1, 2, some 1000⟩
    ⟨1, "Widget", 1000, 10, 7⟩ rfl rfl (by decide) rfl (by decide)).trans (by decide)

/-- Removing a cart's lines then selecting them yields nothing. -/
theorem filter_ne_then_eq_nil (l : List CartItem) (cid : Nat) :
    (l.filter (fun i => i.cartId != cid)).filter (fun i => i.cartId == cid) = [] := by
  rw [List.filter_eq_nil_iff]
  intro a ha
  have hm := List.mem_filter.mp ha
  simp at hm ⊢
  exact hm.2

/-- C7 counterexample: a customer with no cart row at all gets a 404
"Cart not found" from `clearCart` instead of the claimed successful
no-op. -/
theorem clearCart_no_cart_counterexample :
    findCart exDB3 1 = none ∧
    (clearCart 1 exDB3).1.code = 404 ∧
    (clearCart 1 exDB3).1.success = false ∧
    (clearCart 1 exDB3).1.message = "Cart not found" := by
  decide

/-- C7 amended: `clearCart` deletes all lines of the customer's cart and
succeeds when the cart row exists; when the customer has no cart row it
fails with NotFound (it is not a successful no-op). -/
theorem clearCart_amended (db : DB) (uid : Nat) :
    (findCart db uid = none →
      clearCart uid db = (⟨404, false, "Cart not found", none⟩, db)) ∧
    (∀ cart, findCart db uid = some cart →
      clearCart uid db =
        (⟨200, true, "Cart cleared successfully", none⟩,
         { db with cartItems := List.filter (fun i => i.cartId != cart.id) db.cartItems }) ∧
      cartItemsOf (clearCart uid db).2 cart.id = []) := by
  constructor
  · intro hc
    simp only [clearCart, hc]
  · intro cart hc
    constructor
    · simp only [clearCart, hc]
    · simp only [clearCart, hc, cartItemsOf]
      exact filter_ne_then_eq_nil db.cartItems cart.id

/-- Witness for the amended C7: clearing an existing one-line cart. -/
theorem clearCart_amended_witness :
    clearCart 1 exDB6 =
      (⟨200, true, "Cart cleared successfully", none⟩,
       { exDB6 with cartItems := [] }) :=
  (((clearCart_amended exDB6 1).2 ⟨3, 1⟩ rfl).1).trans (by decide)

/-- C8: querying an order id owned by a different customer returns
exactly the same response — the same 404 body with no payload — as
querying an id that matches no order at all, so the caller cannot tell
"not mine" from "does not exist". -/
theorem getOrderById_owner_indistinguishable (db : DB) (uidB oidA oidX : Nat)
    (_hA : ∃ o ∈ db.orders, o.id = oidA ∧ o.userId ≠ uidB)
    (hAall : ∀ o ∈ db.orders, o.id = oidA → o.userId ≠ uidB)
    (hX : ∀ o ∈ db.orders, o.id ≠ oidX) :
    getOrderById uidB oidA db = getOrderById uidB oidX db ∧
    getOrderById uidB oidA db = ⟨404, false, "Order not found", none⟩ := by
  have hnA : db.orders.find? (fun o => o.id == oidA && o.userId == uidB) = none := by
    apply List.find?_eq_none.mpr
    intro o ho
    simp
    intro hid
    exact hAall o ho hid
  have hnX : db.orders.find? (fun o => o.id == oidX && o.userId == uidB) = none := by
    apply List.find?_eq_none.mpr
    intro o ho
    simp
    intro hid
    exact absurd hid (hX o ho)
  constructor
  · unfold getOrderById
    rw [hnA, hnX]
  · unfold getOrderById
    rw [hnA]

/-- Witness for C8: customer 43 probing order 1 (owned by 42) and the
nonexistent order 999 observes identical NotFound responses. -/
theorem getOrderById_owner_indistinguishable_witness :
    getOrderById 43 1 exDB8 = getOrderById 43 999 exDB8 ∧
    getOrderById 43 1 exDB8 = ⟨404, false, "Order not found", none⟩ :=
  getOrderById_owner_indistinguishable exDB8 43 1 999
    ⟨⟨1, 42, 79998, "pending"⟩, by decide, rfl, by decide⟩ (by decide) (by decide)

/-- C9: `updateOrderStatus` rejects a status outside
{pending, completed, cancelled} with InvalidInput leaving the store
untouched, returns NotFound for a missing order, and on success
overwrites only the status column — order ids, owners, totalAmounts and
every order line are unchanged. -/
theorem setStatus_claim (db : DB) (oid : Nat) (status : String) :
    ((["pending", "completed", "cancelled"].contains status) = false →
      updateOrderStatus oid status db =
        (⟨400, false, "Invalid status. Must be: pending, completed, or cancelled", none⟩,
         db)) ∧
    ((["pending", "completed", "cancelled"].contains status) = true →
      db.orders.find? (fun o => o.id == oid) = none →
      updateOrderStatus oid status db = (⟨404, false, "Order not found", none⟩, db)) ∧
    (∀ o, (["pending", "completed", "cancelled"].contains status) = true →
      db.orders.find? (fun r => r.id == oid) = some o →
      updateOrderStatus oid status db =
        (⟨200, true, "Order status updated successfully", none⟩,
         { db with orders := List.map (fun r => if r.id == oid then { r with status := status } else r) db.orders }) ∧
      (updateOrderStatus oid status db).2.orderItems = db.orderItems ∧
      (updateOrderStatus oid status db).2.orders.map
          (fun r => (r.id, r.userId, r.totalAmount)) =
        db.orders.map (fun r => (r.id, r.userId, r.totalAmount))) := by
  refine ⟨?_, ?_, ?_⟩
  · intro h
    simp only [updateOrderStatus]
    rw [h]
    rfl
  · intro h hn
    simp only [updateOrderStatus]
    rw [h]
    simp only [Bool.not_true]
    rw [if_neg Bool.false_ne_true, hn]
  · intro o h hf
    have hred : updateOrderStatus oid status db =
        (⟨200, true, "Order status updated successfully", none⟩,
         { db with orders := List.map (fun r => if r.id == oid then { r with status := status } else r) db.orders }) := by
      simp only [updateOrderStatus]
      rw [h]
      simp only [Bool.not_true]
      rw [if_neg Bool.false_ne_true, hf]
    refine ⟨hred, ?_, ?_⟩
    · rw [hred]
    · rw [hred]
      show (List.map (fun r => if r.id == oid then { r with status := status } else r) db.orders).map
        (fun r => (r.id, r.userId, r.totalAmount)) = _
      rw [List.map_map]
      apply List.map_congr_left
      intro r _
      simp only [Function.comp_apply]
      split <;> rfl

/-- Witness for C9: setting a valid status on an existing order. -/
theorem setStatus_claim_witness :
    updateOrderStatus 1 "completed" exDB8 =
      (⟨200, true, "Order status updated successfully", none⟩,
       { exDB8 with orders := [⟨1, 42, 79998, "completed"⟩] }) :=
  (((setStatus_claim exDB8 1 "completed").2.2 ⟨1, 42, 79998, "pending"⟩
    (by decide) rfl).1).trans (by decide)

/-- C10: the status whitelist is checked before the order lookup, so an
invalid status yields InvalidInput for every store and every order id —
in particular for an id matching no order — and never NotFound. -/
theorem setStatus_validates_first (db : DB) (oid : Nat) (status : String)
    (h : (["pending", "completed", "cancelled"].contains status) = false) :
    updateOrderStatus oid status db =
      (⟨400, false, "Invalid status. Must be: pending, completed, or cancelled", none⟩,
       db) ∧
    (updateOrderStatus oid status db).1.code ≠ 404 := by
  have heq : updateOrderStatus oid status db =
      (⟨400, false, "Invalid status. Must be: pending, completed, or cancelled", none⟩,
       db) := by
    simp only [updateOrderStatus]
    rw [h]
    rfl
  refine ⟨heq, ?_⟩
  rw [heq]
  exact (by decide : (400 : Nat) ≠ 404)

/-- Witness for C10: an invalid status with a nonexistent order id. -/
theorem setStatus_validates_first_witness :
    (["pending", "completed", "cancelled"].contains "shipped") = false ∧
    (updateOrderStatus 999 "shipped" exDB8 =
      (⟨400, false, "Invalid status. Must be: pending, completed, or cancelled", none⟩,
       exDB8) ∧
     (updateOrderStatus 999 "shipped" exDB8).1.code ≠ 404) :=
  ⟨by decide, setStatus_validates_first exDB8 999 "shipped" (by decide)⟩
